import Mathlib

/-!
Verification development for the Kryptobot trading agent (`kryptobot.py`).

The per-pair decision pipeline of `trading_loop` (indicator computation,
threshold evaluation, buy sizing, order submission, sell checks) and the
cycle orchestration are embedded shallowly over exact rationals `ℚ`
(Python/pandas floats are modelled as exact rationals; an IEEE NaN produced
by an indicator on a short history is modelled as `Option.none`, and every
comparison against a NaN value is `false`, matching IEEE comparison
semantics used by the Python code).

External collaborators (the exchange client, e-mail notification) are
modelled as inputs: each pair carries the OHLC history the exchange would
return, the min-order-size answer, and the outcome of the AddOrder /
QueryOrders calls that `place_order` would observe.
-/

set_option maxRecDepth 1000000

attribute [local semireducible] Rat.mul Rat.inv Rat.add Rat.sub Rat.ofScientific

namespace KBot

/-- One OHLC bar (the `open` column is never read by the bot, so it is not
modelled). -/
structure Bar where
  high : ℚ
  low : ℚ
  close : ℚ
deriving DecidableEq, Repr

/-- Comparison `x < y` where `x` may be NaN (`none`): NaN comparisons are
false in Python. -/
def oLt (x : Option ℚ) (y : ℚ) : Bool :=
  match x with
  | none => false
  | some a => decide (a < y)

/-- Comparison `x > y` where `x` may be NaN (`none`). -/
def oGt (x : Option ℚ) (y : ℚ) : Bool :=
  match x with
  | none => false
  | some a => decide (y < a)

/-- Comparison `x <= y` where `y` may be NaN (`none`). -/
def leO (x : ℚ) (y : Option ℚ) : Bool :=
  match y with
  | none => false
  | some b => decide (x ≤ b)

/-- Comparison `x >= y` where `y` may be NaN (`none`). -/
def geO (x : ℚ) (y : Option ℚ) : Bool :=
  match y with
  | none => false
  | some b => decide (b ≤ x)

/-- Comparison `x > y` where either side may be NaN (`none`). -/
def oGtO (x y : Option ℚ) : Bool :=
  match x, y with
  | some a, some b => decide (b < a)
  | _, _ => false

/-- Minimum of two rationals (Python `min` on two non-NaN floats). -/
def qmin (a b : ℚ) : ℚ := if a ≤ b then a else b

/-- Maximum of two rationals (the row-wise `max` of pandas). -/
def qmax (a b : ℚ) : ℚ := if a ≤ b then b else a

/-- Floor of a rational as an integer. -/
def ratFloor (x : ℚ) : ℤ := Int.fdiv x.num x.den

/-- Round a rational to the nearest integer, ties to even
(the rounding mode of Python's builtin `round`). -/
def roundHalfEven (x : ℚ) : ℤ :=
  let n := ratFloor x
  if x - n < 1/2 then n
  else if (1 : ℚ)/2 < x - n then n + 1
  else if n % 2 = 0 then n else n + 1

/-- Python `round(x, 8)` (banker's rounding at 8 decimal places), used by
`trading_loop` on every order volume before submission. -/
def pyRound8 (x : ℚ) : ℚ := (roundHalfEven (x * 100000000) : ℚ) / 100000000

/-- Successive differences of a series (`Series.diff(1)` without its leading
NaN, which every consumer below either skips or treats as absent). -/
def diffList (xs : List ℚ) : List ℚ := List.zipWith (fun b a => b - a) xs.tail xs

/-- Last value of `Series.ewm` (alpha `a`, adjust False) `.mean()` over a list
with no interior NaN: the recursion `y_0 = x_0`, `y_t = (1-a)*y_{t-1} + a*x_t`. -/
def ewmLast (a : ℚ) : List ℚ → ℚ
  | [] => 0
  | x :: xs => xs.foldl (fun y d => (1 - a) * y + a * d) x

/-- Last value of `Series.rolling` (window `w`) `.mean()`: NaN (`none`) when the
series is shorter than the window, else the mean of the last `w` entries.
Models `compute_moving_averages` (kryptobot.py lines 132-136). -/
def rollingMeanLast (w : Nat) (xs : List ℚ) : Option ℚ :=
  if xs.length < w then none
  else some ((xs.drop (xs.length - w)).sum / w)

/-- Last RSI value of `ta.momentum.RSIIndicator(close, window := 14)`, as used
by `compute_indicators` (kryptobot.py lines 117-123).  The `ta` library
computes `diff`, splits into up/down moves, applies
`ewm` (alpha 1/14, min periods 14, adjust False) to each and returns
`100 - 100/(1 + up/down)`.  The leading NaN of `diff` delays the start of the
recursion by one bar, so the last value is defined iff the history holds at
least 15 bars (the RSI itself is assembled by `rsiFromAverages` below, and
`rsiLast` puts the pieces together).  Upward moves `diff.where(diff > 0, 0.0)`: -/
def upMoves (d : List ℚ) : List ℚ := d.map (fun x => if 0 < x then x else 0)

/-- Downward moves `-diff.where(diff < 0, 0.0)` of a difference series. -/
def downMoves (d : List ℚ) : List ℚ := d.map (fun x => if x < 0 then -x else 0)

/-- `100 - 100/(1 + eu/ed)` with the IEEE conventions for `ed = 0`: a
positive `eu` gives `rs = +inf` hence RSI 100, while `eu = 0` gives `0/0`,
i.e. NaN. -/
def rsiFromAverages (eu ed : ℚ) : Option ℚ :=
  if ed = 0 then (if eu = 0 then none else some 100)
  else some (100 - 100 / (1 + eu / ed))

def rsiLast (closes : List ℚ) : Option ℚ :=
  if closes.length < 15 then none
  else
    rsiFromAverages (ewmLast (1/14) (upMoves (diffList closes)))
      (ewmLast (1/14) (downMoves (diffList closes)))

/-- True-range series of `ta.volatility.AverageTrueRange`: the first bar has
no previous close (NaN), and the row-wise `max` skips NaN, leaving
`high - low`; later bars take `max(high-low, |high-prevClose|, |low-prevClose|)`. -/
def trList : List Bar → List ℚ
  | [] => []
  | b :: rest =>
    (b.high - b.low) ::
      List.zipWith
        (fun cur prev =>
          qmax (cur.high - cur.low)
            (qmax (qmax (cur.high - prev.close) (prev.close - cur.high))
              (qmax (cur.low - prev.close) (prev.close - cur.low))))
        rest (b :: rest)

/-- Last ATR value of `ta.volatility.AverageTrueRange` with window 14, as used
by `compute_atr` (kryptobot.py lines 138-142): Wilder smoothing seeded with
the mean of the first 14 true ranges, and no value for shorter histories.
`wilderFold` is the smoothing recursion `atr[i] = (13*atr[i-1] + tr[i])/14`
seeded with `mean(tr[0:14])`: -/
def wilderFold (tr : List ℚ) : ℚ :=
  (tr.drop 14).foldl (fun a t => (13 * a + t) / 14) ((tr.take 14).sum / 14)

def atrLast (bars : List Bar) : Option ℚ :=
  if bars.length < 14 then none else some (wilderFold (trList bars))

/-- The indicator values `trading_loop` computes for one pair
(kryptobot.py lines 415-419).  MACD diff/signal are also computed by the
source (line 417) but are read by no decision, so they are not modelled. -/
structure Snapshot where
  rsi : Option ℚ
  shortSma : Option ℚ
  longSma : Option ℚ
  atr : Option ℚ
deriving DecidableEq, Repr

/-- Close column of a history. -/
def closesOf (bars : List Bar) : List ℚ := bars.map Bar.close

/-- `ohlc['close'].iloc[-1]` (current price). -/
def lastClose (bars : List Bar) : ℚ := (closesOf bars).getD (bars.length - 1) 0

/-- `ohlc['close'].iloc[-2]` (previous close). -/
def prevClose (bars : List Bar) : ℚ := (closesOf bars).getD (bars.length - 2) 0

/-- Indicator snapshot from a history: RSI(14), SMA(50), SMA(200), ATR(14),
mirroring kryptobot.py lines 416-419. -/
def snapshotOfBars (bars : List Bar) : Snapshot :=
  { rsi := rsiLast (closesOf bars)
    shortSma := rollingMeanLast 50 (closesOf bars)
    longSma := rollingMeanLast 200 (closesOf bars)
    atr := atrLast bars }

/-- `buy_threshold = previous_close * (1 - 0.15 - atr / previous_close)`
(kryptobot.py line 422). -/
def buyThresholdQ (pc a : ℚ) : ℚ := pc * (1 - 15/100 - a / pc)

/-- `sell_loss_threshold = previous_close * (1 - 0.07 - atr / previous_close)`
(kryptobot.py line 423). -/
def sellLossThresholdQ (pc a : ℚ) : ℚ := pc * (1 - 7/100 - a / pc)

/-- `sell_profit_threshold = previous_close * (1 + 0.25 + atr / previous_close)`
(kryptobot.py line 424). -/
def sellProfitThresholdQ (pc a : ℚ) : ℚ := pc * (1 + 25/100 + a / pc)

/-- `is_uptrend = short_sma > long_sma` (kryptobot.py line 427); false when
either SMA is NaN. -/
def isUptrend (s : Snapshot) : Bool := oGtO s.shortSma s.longSma

/-- The buy condition `rsi < 30 and current_price <= buy_threshold and
is_uptrend` (kryptobot.py line 430). -/
def buySignal (s : Snapshot) (cp pc : ℚ) : Bool :=
  oLt s.rsi 30 && leO cp (s.atr.map (fun a => buyThresholdQ pc a)) && isUptrend s

/-- The disjunctive sell trigger `rsi > 70 or current_price <=
sell_loss_threshold or current_price >= sell_profit_threshold`
(kryptobot.py line 452). -/
def sellTrigger (s : Snapshot) (cp pc : ℚ) : Bool :=
  oGt s.rsi 70 || leO cp (s.atr.map (fun a => sellLossThresholdQ pc a))
    || geO cp (s.atr.map (fun a => sellProfitThresholdQ pc a))

/-- Full sell condition `tradable_vol > 0 and (...)` (kryptobot.py line 452). -/
def sellSignal (s : Snapshot) (cp pc tv : ℚ) : Bool :=
  decide (0 < tv) && sellTrigger s cp pc

/-- Order side. -/
inductive Side where
  | buy
  | sell
deriving DecidableEq, Repr

/-- Modelled outcome of one `AddOrder` call as observed by `place_order`
(kryptobot.py lines 189-231): the response carries a truthy `error` field, or
carries no `txid`, or returns an order id (with the result of the single
follow-up `QueryOrders` fill check folded in as `filled`), or the client
raises an exception. -/
inductive AddOrderResp where
  | err
  | noTxid
  | placed (orderId : String) (filled : Bool)
  | raised
deriving DecidableEq, Repr

/-- Whether the exchange accepted the order (an order id exists on the
exchange): only the `placed` outcome. -/
def placedOnExchange : AddOrderResp → Bool
  | .placed _ _ => true
  | _ => false

/-- Whether `place_order` reports success, i.e. the order was placed and the
single fill poll saw status `closed`. -/
def isFilled : AddOrderResp → Bool
  | .placed _ f => f
  | _ => false

/-- Observable result of `place_order`: its return value plus whether an
e-mail notification was sent and whether the fill status was polled. -/
structure PlaceResult where
  success : Bool
  orderId : Option String
  emailed : Bool
  polled : Bool
deriving DecidableEq, Repr

/-- `place_order` (kryptobot.py lines 189-231).  A truthy `error` field only
logs and returns `(False, None)` — no notification, no fill poll.  A missing
`txid` likewise.  With an order id the function e-mails an executed-order
notification, polls the fill status once, and returns `(filled, orderId)`.
An exception is caught, a failure notification is e-mailed, and
`(False, None)` is returned. -/
def placeOrder : AddOrderResp → PlaceResult
  | .err => ⟨false, none, false, false⟩
  | .noTxid => ⟨false, none, false, false⟩
  | .placed oid filled => ⟨filled, some oid, true, true⟩
  | .raised => ⟨false, none, true, false⟩

/-- A record of one order submission attempted by the model, with the volume
actually submitted, the current price at submission, the pre-rounding volume
(`min(position_size, cap)` for buys, `tradable_vol` for sells) kept as ghost
data, and the collaborator outcome. -/
structure SubmittedOrder where
  pair : String
  side : Side
  volume : ℚ
  price : ℚ
  preVolume : ℚ
  resp : AddOrderResp
deriving DecidableEq, Repr

/-- One entry of the cycle-scoped `trades` list (kryptobot.py lines 446, 456). -/
structure TradeRec where
  type : Side
  symbol : String
  price : ℚ
  stopLoss : Option ℚ
deriving DecidableEq, Repr

/-- The mutable per-cycle state threaded through the pair loop:
`total_allocated` and `trades` (kryptobot.py lines 390-391). -/
structure StepState where
  totalAllocated : ℚ
  trades : List TradeRec
deriving DecidableEq, Repr

/-- Environment data for one watchlist pair: the OHLC history the exchange
returns (`none` models a fetch exception), the `get_min_order_size` answer
(0.0 on error, per lines 177-187), and the collaborator outcomes of a buy
resp. sell submission for this pair. -/
structure PairInput where
  pair : String
  bars : Option (List Bar)
  minOrder : ℚ
  buyOrderRes : AddOrderResp
  sellOrderRes : AddOrderResp
deriving DecidableEq, Repr

/-- `pair[:4]`, the fixed-length prefix used as the asset code for the sell
check (kryptobot.py line 450). -/
def pyPrefix4 (s : String) : String := ⟨s.data.take 4⟩

/-- Tradable-balance lookup: `float(balance_tradable.loc[code, 'vol'])` if the
code is present, else 0.0 (kryptobot.py line 451). -/
def lookupQ (bt : List (String × ℚ)) (code : String) : ℚ :=
  match bt.find? (fun p => p.1 == code) with
  | some p => p.2
  | none => 0

/-- Buy branch for one pair (kryptobot.py lines 430-447), given buying power
`bp`, the pair's environment data, current price `cp`, previous close `pc`,
the indicator snapshot and the running state.  When the buy signal fires:
1% risk sizing against a 2-ATR stop, a cap by the remaining 20% allocation
budget, 8-decimal rounding, a min-order check, then submission; the
accumulator and trade list are updated only when `place_order` reports
success.  `snap.atr.getD 0` is only evaluated under `buySignal`, which
requires the ATR-based buy threshold to be non-NaN, so the default is never
read. -/
def buyPhase (bp : ℚ) (pair : String) (minOrder : ℚ) (resp : AddOrderResp)
    (cp pc : ℚ) (snap : Snapshot) (st : StepState) :
    StepState × List SubmittedOrder :=
  if buySignal snap cp pc then
    let a := snap.atr.getD 0
    let stopLoss := cp - 2 * a
    if cp ≤ stopLoss then (st, [])
    else
      let riskPerTrade := bp * (1/100)
      let positionSize := riskPerTrade / (cp - stopLoss)
      let preVol := qmin positionSize ((bp * (20/100) - st.totalAllocated) / cp)
      let volume := pyRound8 preVol
      if volume < minOrder then (st, [])
      else
        let pr := placeOrder resp
        let ord : SubmittedOrder := ⟨pair, Side.buy, volume, cp, preVol, resp⟩
        if pr.success then
          ({ totalAllocated := st.totalAllocated + volume * cp,
             trades := st.trades ++ [⟨Side.buy, pair, cp, some stopLoss⟩] }, [ord])
        else (st, [ord])
  else (st, [])

/-- Sell branch for one pair (kryptobot.py lines 450-456): the tradable
holding of the 4-character prefix of the pair identifier, a disjunctive
trigger, the whole holding rounded to 8 decimals as volume, submission with
no min-order check, and a trade record only on reported success. -/
def sellPhase (bt : List (String × ℚ)) (pair : String) (resp : AddOrderResp)
    (cp pc : ℚ) (snap : Snapshot) (st : StepState) :
    StepState × List SubmittedOrder :=
  let tradableVol := lookupQ bt (pyPrefix4 pair)
  if sellSignal snap cp pc tradableVol then
    let volume := pyRound8 tradableVol
    let pr := placeOrder resp
    let ord : SubmittedOrder := ⟨pair, Side.sell, volume, cp, tradableVol, resp⟩
    (if pr.success then { st with trades := st.trades ++ [⟨Side.sell, pair, cp, none⟩] }
     else st, [ord])
  else (st, [])

/-- Guards a pair must pass before indicators are computed
(kryptobot.py lines 402-413): at least 2 bars (`iloc[-2]` raises and is
caught otherwise, and this also covers the `ohlc.empty` check), a non-zero
last close (the explicit `ValueError`), and the plausibility bound
`0 < current_price < 1e10`.  Each failing guard has the same observable
effect: the pair is skipped. -/
def barsOk (bars : List Bar) : Bool :=
  decide (2 ≤ bars.length) && decide (lastClose bars ≠ 0)
    && decide (0 < lastClose bars) && decide (lastClose bars < 10000000000)

/-- One iteration of the pair loop (kryptobot.py lines 393-456) for one pair:
skip on fetch failure or failed guards, else compute indicators and run the
buy branch followed by the sell branch.  Returns the updated state and the
orders submitted for this pair. -/
def pairStep (bp : ℚ) (bt : List (String × ℚ)) (inp : PairInput)
    (st : StepState) : StepState × List SubmittedOrder :=
  match inp.bars with
  | none => (st, [])
  | some bars =>
    if barsOk bars then
      let cp := lastClose bars
      let pc := prevClose bars
      let snap := snapshotOfBars bars
      let rb := buyPhase bp inp.pair inp.minOrder inp.buyOrderRes cp pc snap st
      let rs := sellPhase bt inp.pair inp.sellOrderRes cp pc snap rb.1
      (rs.1, rb.2 ++ rs.2)
    else (st, [])

/-- Result of running the pair loop over a watchlist suffix. -/
structure RunAcc where
  state : StepState
  orders : List SubmittedOrder
  evaluated : List String
deriving DecidableEq, Repr

/-- The pair loop itself: sequential, left to right, threading the state. -/
def runPairs (bp : ℚ) (bt : List (String × ℚ)) :
    List PairInput → StepState → RunAcc
  | [], st => ⟨st, [], []⟩
  | inp :: rest, st =>
    let r := pairStep bp bt inp st
    let acc := runPairs bp bt rest r.1
    ⟨acc.state, r.2 ++ acc.orders, inp.pair :: acc.evaluated⟩

/-- Environment data for one cycle: buying power captured at cycle start, the
tradable-balance table captured at cycle start, and the watchlist with each
pair's environment data. -/
structure CycleInput where
  buyingPower : ℚ
  balanceTradable : List (String × ℚ)
  watchlist : List PairInput
deriving DecidableEq, Repr

/-- Observable outcome of one cycle: which pairs the loop evaluated, the
orders submitted, the final per-cycle state and the duration (in seconds)
passed to the trailing `sleep_with_exit`. -/
structure CycleResult where
  evaluated : List String
  orders : List SubmittedOrder
  finalState : StepState
  cycleSleep : Nat
deriving DecidableEq, Repr

/-- One iteration of the `while not exit_flag` cycle loop
(kryptobot.py lines 367-472), for executions in which the shutdown flag stays
unset: an empty watchlist sleeps 300 s and skips the cycle; buying power ≤ 0
sleeps 300 s and skips the cycle; otherwise the pair loop runs with
`total_allocated = 0`, `trades = []`, and the cycle ends with a 300 s sleep. -/
def runCycle (ci : CycleInput) : CycleResult :=
  if ci.watchlist.isEmpty then ⟨[], [], ⟨0, []⟩, 300⟩
  else if ci.buyingPower ≤ 0 then ⟨[], [], ⟨0, []⟩, 300⟩
  else
    let acc := runPairs ci.buyingPower ci.balanceTradable ci.watchlist ⟨0, []⟩
    ⟨acc.evaluated, acc.orders, acc.state, 300⟩

/-- `sleep_with_exit(total, 1)` (kryptobot.py lines 74-80) over discrete
1-second ticks: before each tick the loop re-checks `elapsed < total and not
exit_flag`; `flag t` is the value of `exit_flag` observed after `t` elapsed
ticks.  Returns the number of ticks actually slept, driven here by the
remaining tick budget `rem` and current elapsed count `t`. -/
def sleepRun (flag : Nat → Bool) : Nat → Nat → Nat
  | 0, t => t
  | rem + 1, t => if flag t then t else sleepRun flag rem (t + 1)

/-- Notional value (submitted volume times current price) summed over the
orders selected by `p`. -/
def notionalSum (p : SubmittedOrder → Bool) (os : List SubmittedOrder) : ℚ :=
  ((os.filter p).map (fun o => o.volume * o.price)).sum

/-- Combined notional of the buy orders that were placed on the exchange
(an order id was returned), whether or not the fill poll saw them filled. -/
def placedBuyNotional (os : List SubmittedOrder) : ℚ :=
  notionalSum (fun o => o.side == Side.buy && placedOnExchange o.resp) os

/-- Combined notional of the buy orders whose submission `place_order`
reported as successful (placed and seen filled) — exactly the orders the
`total_allocated` accumulator counts. -/
def filledBuyNotional (os : List SubmittedOrder) : ℚ :=
  notionalSum (fun o => o.side == Side.buy && isFilled o.resp) os

/-- Degenerate daily bar with equal high, low and close, as used by the
concrete test histories. -/
def mkBar (c : ℚ) : Bar := ⟨c, c, c⟩

/-- A 200-bar history: a slow one-point-per-day rally from 1000 to 1198
followed by a one-day crash back to 1000.  The rally keeps the 50-day SMA
above the 200-day SMA while the crash drives RSI far below 30 and the last
close below the ATR-adjusted buy threshold, so the buy signal fires. -/
def crashCloses : List ℚ := ((List.range 199).map (fun i => (1000 : ℚ) + i)) ++ [1000]

/-- Bars of `crashCloses`: all bars are degenerate except the first, whose
high-low range is 1, so that the seed of the ATR recursion is exactly the
constant daily true range and every intermediate ATR value is a small
rational. -/
def crashBars : List Bar :=
  match crashCloses with
  | [] => []
  | c :: rest => ⟨c + 1, c, c⟩ :: rest.map mkBar

/-- A 20-bar history rising from 100 to 118 with a single down day, driving
RSI far above 70 while the 200-day SMA (and the 50-day SMA) stay undefined. -/
def rallyCloses : List ℚ :=
  [100, 101, 102, 103, 104, 105, 106, 105, 107, 108,
   109, 110, 111, 112, 113, 114, 115, 116, 117, 118]

/-- Bars of `rallyCloses`. -/
def rallyBars : List Bar := rallyCloses.map mkBar

/-- A pair whose buy order is accepted by the exchange but reported unfilled
by the single poll. -/
def buyUnfilledInp : PairInput :=
  ⟨"XXBTZUSD", some crashBars, 1/100, .placed "IDA" false, .err⟩

/-- A pair whose buy order is accepted and reported filled. -/
def buyFilledInp : PairInput :=
  ⟨"XETHZUSD", some crashBars, 1/100, .placed "IDB" true, .err⟩

/-- A pair whose buy submission gets an error response from the collaborator. -/
def buyErrInp : PairInput :=
  ⟨"XXBTZUSD", some crashBars, 1/100, .err, .err⟩

/-- Cycle with two buying pairs, the first placed-but-unfilled. -/
def twoBuyCycle : CycleInput := ⟨10000, [], [buyUnfilledInp, buyFilledInp]⟩

/-- Cycle with a single filled buy. -/
def oneBuyCycle : CycleInput := ⟨10000, [], [buyFilledInp]⟩

/-- The sell-side scenario: rallying history, holdings under asset code XXBT. -/
def sellRallyInp : PairInput :=
  ⟨"XXBTZUSD", some rallyBars, 1/100, .err, .placed "IDS" true⟩

/-- Tradable balance holding 2 XXBT. -/
def rallyBt : List (String × ℚ) := [("XXBT", 2)]

/-- The same sell scenario for the pair ADAZUSD. -/
def sellAdaInp : PairInput :=
  ⟨"ADAZUSD", some rallyBars, 1/100, .err, .placed "IDT" true⟩

/-- Tradable balance holding 5 ADA. -/
def adaBt : List (String × ℚ) := [("ADA", 5)]

/-- Sell scenario with an exchange minimum far above the holding. -/
def sellBigMinInp : PairInput :=
  ⟨"XXBTZUSD", some rallyBars, 1000000, .err, .placed "IDS" true⟩

/-- Cycle with zero buying power over a pair whose sell trigger would fire. -/
def zeroBpCycle : CycleInput := ⟨0, rallyBt, [sellRallyInp]⟩

/-- The buy order `pairStep` submits for `buyFilledInp`. -/
def filledBuyOrder : SubmittedOrder :=
  ⟨"XETHZUSD", Side.buy, 2, 1000, 2, .placed "IDB" true⟩

/-- The sell order `pairStep` submits for `sellRallyInp`. -/
def rallySellOrder : SubmittedOrder :=
  ⟨"XXBTZUSD", Side.sell, 2, 118, 2, .placed "IDS" true⟩

/-- Modelled from the spec: the base asset of each watchlist pair according
to the exchange's pair metadata, which the source never consults (the code
slices `pair[:4]` instead, and spec §9 flags exactly this as a likely
defect: "some identifiers do not share that prefix convention with their
base asset code").  Entries follow Kraken's asset codes for the pairs in
`FULL_NAMES`: the legacy X/Z-prefixed pairs have a 4-character base code,
the newer listings use their plain ticker. -/
def baseAssetSpec : String → String
  | "XXBTZUSD" => "XXBT"
  | "XETHZUSD" => "XETH"
  | "XXRPZUSD" => "XXRP"
  | "XLTCZUSD" => "XLTC"
  | "BCHUSD" => "BCH"
  | "XXLMZUSD" => "XXLM"
  | "XETCZUSD" => "XETC"
  | "ADAZUSD" => "ADA"
  | "DOTZUSD" => "DOT"
  | "LINKZUSD" => "LINK"
  | "XTZZUSD" => "XTZ"
  | "EOSZUSD" => "EOS"
  | "ATOMZUSD" => "ATOM"
  | "ALGOZUSD" => "ALGO"
  | "PEPEZUSD" => "PEPE"
  | s => s

/-- The indicator snapshot of the crash history, as explicit literals. -/
def crashSnap : Snapshot :=
  ⟨some (1300/211), some (29263/25), some (219701/200), some (211/14)⟩

/-- The buy order submitted for `buyUnfilledInp`. -/
def unfilledBuyOrder : SubmittedOrder :=
  ⟨"XXBTZUSD", Side.buy, 2, 1000, 2, .placed "IDA" false⟩

/-- The buy order submitted for `buyErrInp`. -/
def errBuyOrder : SubmittedOrder := ⟨"XXBTZUSD", Side.buy, 2, 1000, 2, .err⟩

lemma qmin_le_right (a b : ℚ) : qmin a b ≤ b := by
  unfold qmin; split
  · assumption
  · exact le_refl b

lemma mem_buyPhase {bp : ℚ} {pair : String} {minOrder : ℚ} {resp : AddOrderResp}
    {cp pc : ℚ} {snap : Snapshot} {st : StepState} {o : SubmittedOrder}
    (ho : o ∈ (buyPhase bp pair minOrder resp cp pc snap st).2) :
    o.side = Side.buy ∧ o.price = cp ∧ o.resp = resp ∧ o.pair = pair ∧
    o.volume = pyRound8 o.preVolume ∧ minOrder ≤ o.volume ∧
    o.preVolume ≤ (bp * (20/100) - st.totalAllocated) / cp ∧
    buySignal snap cp pc = true := by
  unfold buyPhase at ho
  split at ho
  · dsimp only at ho
    split at ho
    · simp at ho
    · split at ho
      · simp at ho
      · split at ho <;>
        · simp only [List.mem_singleton] at ho
          subst ho
          refine ⟨rfl, rfl, rfl, rfl, rfl, le_of_not_lt (by assumption), qmin_le_right _ _, by assumption⟩
  · simp at ho

lemma placeOrder_success (r : AddOrderResp) : (placeOrder r).success = isFilled r := by
  cases r <;> rfl

lemma barsOk_facts {bars : List Bar} (h : barsOk bars = true) :
    2 ≤ bars.length ∧ 0 < lastClose bars ∧ lastClose bars < 10000000000 := by
  simp only [barsOk, Bool.and_eq_true, decide_eq_true_eq] at h
  exact ⟨h.1.1.1, h.1.2, h.2⟩

lemma notionalSum_append (p : SubmittedOrder → Bool) (a b : List SubmittedOrder) :
    notionalSum p (a ++ b) = notionalSum p a + notionalSum p b := by
  simp [notionalSum, List.filter_append]

lemma buyPhase_orders_shape (bp : ℚ) (pair : String) (minOrder : ℚ)
    (resp : AddOrderResp) (cp pc : ℚ) (snap : Snapshot) (st : StepState) :
    (buyPhase bp pair minOrder resp cp pc snap st).2 = [] ∨
    ∃ ord, (buyPhase bp pair minOrder resp cp pc snap st).2 = [ord] := by
  unfold buyPhase
  split
  · dsimp only
    split
    · exact Or.inl rfl
    · split
      · exact Or.inl rfl
      · split
        · exact Or.inr ⟨_, rfl⟩
        · exact Or.inr ⟨_, rfl⟩
  · exact Or.inl rfl

lemma buyPhase_trades_state (bp : ℚ) (pair : String) (minOrder : ℚ)
    (resp : AddOrderResp) (cp pc : ℚ) (snap : Snapshot) (st : StepState)
    (h : isFilled resp = false) :
    (buyPhase bp pair minOrder resp cp pc snap st).1 = st := by
  unfold buyPhase
  split
  · dsimp only
    split
    · rfl
    · split
      · rfl
      · split
        · rename_i hs
          rw [placeOrder_success, h] at hs
          exact absurd hs (by simp)
        · rfl
  · rfl

lemma buyPhase_alloc (bp : ℚ) (pair : String) (minOrder : ℚ)
    (resp : AddOrderResp) (cp pc : ℚ) (snap : Snapshot) (st : StepState) :
    (buyPhase bp pair minOrder resp cp pc snap st).1.totalAllocated =
      st.totalAllocated +
        filledBuyNotional (buyPhase bp pair minOrder resp cp pc snap st).2 := by
  unfold buyPhase
  split
  · dsimp only
    split
    · simp [filledBuyNotional, notionalSum]
    · split
      · simp [filledBuyNotional, notionalSum]
      · split
        · rename_i hs
          rw [placeOrder_success] at hs
          simp [filledBuyNotional, notionalSum, hs]
        · rename_i hs
          rw [placeOrder_success, Bool.not_eq_true] at hs
          simp [filledBuyNotional, notionalSum, hs]
  · simp [filledBuyNotional, notionalSum]

lemma buyPhase_trades_filterSell (bp : ℚ) (pair : String) (minOrder : ℚ)
    (resp : AddOrderResp) (cp pc : ℚ) (snap : Snapshot) (st : StepState) :
    (buyPhase bp pair minOrder resp cp pc snap st).1.trades.filter
        (fun t => t.type == Side.sell) =
      st.trades.filter (fun t => t.type == Side.sell) := by
  unfold buyPhase
  split
  · dsimp only
    split
    · rfl
    · split
      · rfl
      · split
        · simp
        · rfl
  · rfl

lemma sellPhase_orders (bt : List (String × ℚ)) (pair : String)
    (resp : AddOrderResp) (cp pc : ℚ) (snap : Snapshot) (st : StepState) :
    (sellPhase bt pair resp cp pc snap st).2 =
      if sellSignal snap cp pc (lookupQ bt (pyPrefix4 pair)) then
        [⟨pair, Side.sell, pyRound8 (lookupQ bt (pyPrefix4 pair)), cp,
          lookupQ bt (pyPrefix4 pair), resp⟩]
      else [] := by
  unfold sellPhase
  dsimp only
  split <;> rfl

lemma sellPhase_alloc (bt : List (String × ℚ)) (pair : String)
    (resp : AddOrderResp) (cp pc : ℚ) (snap : Snapshot) (st : StepState) :
    (sellPhase bt pair resp cp pc snap st).1.totalAllocated = st.totalAllocated := by
  unfold sellPhase
  dsimp only
  split
  · split <;> rfl
  · rfl

lemma sellPhase_trades_filterBuy (bt : List (String × ℚ)) (pair : String)
    (resp : AddOrderResp) (cp pc : ℚ) (snap : Snapshot) (st : StepState) :
    (sellPhase bt pair resp cp pc snap st).1.trades.filter
        (fun t => t.type == Side.buy) =
      st.trades.filter (fun t => t.type == Side.buy) := by
  unfold sellPhase
  dsimp only
  split
  · split
    · simp
    · rfl
  · rfl

lemma mem_sellPhase {bt : List (String × ℚ)} {pair : String}
    {resp : AddOrderResp} {cp pc : ℚ} {snap : Snapshot} {st : StepState}
    {o : SubmittedOrder} (ho : o ∈ (sellPhase bt pair resp cp pc snap st).2) :
    o.side = Side.sell ∧ o.pair = pair ∧ o.price = cp ∧ o.resp = resp ∧
    o.volume = pyRound8 (lookupQ bt (pyPrefix4 pair)) := by
  rw [sellPhase_orders] at ho
  split at ho
  · simp only [List.mem_singleton] at ho
    subst ho
    exact ⟨rfl, rfl, rfl, rfl, rfl⟩
  · simp at ho

lemma filledBuyNotional_sellPhase (bt : List (String × ℚ)) (pair : String)
    (resp : AddOrderResp) (cp pc : ℚ) (snap : Snapshot) (st : StepState) :
    filledBuyNotional (sellPhase bt pair resp cp pc snap st).2 = 0 := by
  rw [sellPhase_orders]
  split <;> simp [filledBuyNotional, notionalSum]

lemma pairStep_alloc (bp : ℚ) (bt : List (String × ℚ)) (inp : PairInput)
    (st : StepState) :
    (pairStep bp bt inp st).1.totalAllocated =
      st.totalAllocated + filledBuyNotional (pairStep bp bt inp st).2 := by
  unfold pairStep
  split
  · simp [filledBuyNotional, notionalSum]
  · rename_i bars heq
    split
    · dsimp only
      rw [sellPhase_alloc, buyPhase_alloc]
      simp only [filledBuyNotional]
      rw [notionalSum_append]
      have h2 := filledBuyNotional_sellPhase bt inp.pair inp.sellOrderRes
        (lastClose bars) (prevClose bars) (snapshotOfBars bars)
        (buyPhase bp inp.pair inp.minOrder inp.buyOrderRes (lastClose bars)
          (prevClose bars) (snapshotOfBars bars) st).1
      rw [filledBuyNotional] at h2
      rw [h2]
      ring
    · simp [filledBuyNotional, notionalSum]

lemma notionalSum_singleton (p : SubmittedOrder → Bool) (o : SubmittedOrder) :
    notionalSum p [o] = if p o then o.volume * o.price else 0 := by
  simp only [notionalSum, List.filter]
  split <;> simp_all

lemma buyPhase_bound (bp : ℚ) (pair : String) (minOrder : ℚ)
    (resp : AddOrderResp) (cp pc : ℚ) (snap : Snapshot) (st : StepState)
    (hst : st.totalAllocated ≤ bp * (20/100)) (hcp : 0 < cp)
    (hr : ∀ o ∈ (buyPhase bp pair minOrder resp cp pc snap st).2,
      o.volume ≤ o.preVolume) :
    st.totalAllocated +
      filledBuyNotional (buyPhase bp pair minOrder resp cp pc snap st).2 ≤
      bp * (20/100) := by
  rcases buyPhase_orders_shape bp pair minOrder resp cp pc snap st with h | ⟨ord, h⟩
  · rw [h]
    simpa [filledBuyNotional, notionalSum] using hst
  · have hmem : ord ∈ (buyPhase bp pair minOrder resp cp pc snap st).2 := by
      rw [h]
      exact List.mem_singleton_self ord
    have hm := mem_buyPhase hmem
    have hvol := hr ord hmem
    rw [h, filledBuyNotional, notionalSum_singleton]
    split
    · have h1 : ord.volume * ord.price ≤ ord.preVolume * cp := by
        rw [hm.2.1]
        exact mul_le_mul_of_nonneg_right hvol (le_of_lt hcp)
      have h2 : ord.preVolume * cp ≤ bp * (20/100) - st.totalAllocated := by
        have := mul_le_mul_of_nonneg_right hm.2.2.2.2.2.2.1 (le_of_lt hcp)
        rwa [div_mul_cancel₀ _ (ne_of_gt hcp)] at this
      linarith
    · simpa using hst

lemma pairStep_none {bp : ℚ} {bt : List (String × ℚ)} {inp : PairInput}
    {st : StepState} (heq : inp.bars = none) : pairStep bp bt inp st = (st, []) := by
  unfold pairStep
  rw [heq]

lemma pairStep_badBars {bp : ℚ} {bt : List (String × ℚ)} {inp : PairInput}
    {st : StepState} {bars : List Bar} (heq : inp.bars = some bars)
    (hOk : barsOk bars = false) : pairStep bp bt inp st = (st, []) := by
  unfold pairStep
  rw [heq]
  simp [hOk]

lemma pairStep_run {bp : ℚ} {bt : List (String × ℚ)} {inp : PairInput}
    {st : StepState} {bars : List Bar} (heq : inp.bars = some bars)
    (hOk : barsOk bars = true) :
    pairStep bp bt inp st =
      ((sellPhase bt inp.pair inp.sellOrderRes (lastClose bars) (prevClose bars)
          (snapshotOfBars bars)
          (buyPhase bp inp.pair inp.minOrder inp.buyOrderRes (lastClose bars)
            (prevClose bars) (snapshotOfBars bars) st).1).1,
        (buyPhase bp inp.pair inp.minOrder inp.buyOrderRes (lastClose bars)
          (prevClose bars) (snapshotOfBars bars) st).2 ++
        (sellPhase bt inp.pair inp.sellOrderRes (lastClose bars) (prevClose bars)
          (snapshotOfBars bars)
          (buyPhase bp inp.pair inp.minOrder inp.buyOrderRes (lastClose bars)
            (prevClose bars) (snapshotOfBars bars) st).1).2) := by
  unfold pairStep
  rw [heq]
  simp [hOk]

lemma pairStep_invariant (bp : ℚ) (bt : List (String × ℚ)) (inp : PairInput)
    (st : StepState) (hst : st.totalAllocated ≤ bp * (20/100))
    (hr : ∀ o ∈ (pairStep bp bt inp st).2, o.side = Side.buy →
      o.volume ≤ o.preVolume) :
    (pairStep bp bt inp st).1.totalAllocated ≤ bp * (20/100) := by
  rcases heq : inp.bars with _ | bars
  · rw [pairStep_none heq]
    exact hst
  · rcases hOk : barsOk bars with _ | _
    · rw [pairStep_badBars heq hOk]
      exact hst
    · rw [pairStep_run heq hOk] at hr ⊢
      dsimp only at hr ⊢
      rw [sellPhase_alloc, buyPhase_alloc]
      refine buyPhase_bound bp inp.pair inp.minOrder inp.buyOrderRes
        (lastClose bars) (prevClose bars) (snapshotOfBars bars) st hst
        (barsOk_facts hOk).2.1 ?_
      intro o ho
      exact hr o (List.mem_append_left _ ho) (mem_buyPhase ho).1

lemma pairStep_not_filled (bp : ℚ) (bt : List (String × ℚ)) (inp : PairInput)
    (st : StepState) (h : isFilled inp.buyOrderRes = false) :
    (pairStep bp bt inp st).1.totalAllocated = st.totalAllocated ∧
    (pairStep bp bt inp st).1.trades.filter (fun t => t.type == Side.buy) =
      st.trades.filter (fun t => t.type == Side.buy) := by
  rcases heq : inp.bars with _ | bars
  · rw [pairStep_none heq]
    exact ⟨rfl, rfl⟩
  · rcases hOk : barsOk bars with _ | _
    · rw [pairStep_badBars heq hOk]
      exact ⟨rfl, rfl⟩
    · rw [pairStep_run heq hOk]
      dsimp only
      rw [buyPhase_trades_state _ _ _ _ _ _ _ _ h]
      exact ⟨sellPhase_alloc _ _ _ _ _ _ _, sellPhase_trades_filterBuy _ _ _ _ _ _ _⟩

lemma runPairs_evaluated (bp : ℚ) (bt : List (String × ℚ)) :
    ∀ (l : List PairInput) (st : StepState),
      (runPairs bp bt l st).evaluated = l.map PairInput.pair
  | [], _ => rfl
  | inp :: rest, st => by
    simp only [runPairs, List.map]
    rw [runPairs_evaluated bp bt rest]

lemma runPairs_invariant (bp : ℚ) (bt : List (String × ℚ)) :
    ∀ (l : List PairInput) (st : StepState),
      st.totalAllocated ≤ bp * (20/100) →
      (∀ o ∈ (runPairs bp bt l st).orders, o.side = Side.buy →
        o.volume ≤ o.preVolume) →
      (runPairs bp bt l st).state.totalAllocated ≤ bp * (20/100)
  | [], st, hst, _ => hst
  | inp :: rest, st, hst, hr => by
    simp only [runPairs] at hr ⊢
    refine runPairs_invariant bp bt rest (pairStep bp bt inp st).1 ?_ ?_
    · exact pairStep_invariant bp bt inp st hst
        (fun o ho hs => hr o (List.mem_append_left _ ho) hs)
    · exact fun o ho hs => hr o (List.mem_append_right _ ho) hs

lemma runPairs_alloc_sum (bp : ℚ) (bt : List (String × ℚ)) :
    ∀ (l : List PairInput) (st : StepState),
      (runPairs bp bt l st).state.totalAllocated =
        st.totalAllocated + filledBuyNotional (runPairs bp bt l st).orders
  | [], st => by simp [runPairs, filledBuyNotional, notionalSum]
  | inp :: rest, st => by
    simp only [runPairs]
    rw [runPairs_alloc_sum bp bt rest, pairStep_alloc]
    simp only [filledBuyNotional]
    rw [notionalSum_append]
    ring

lemma runCycle_skip (ci : CycleInput)
    (h : ci.watchlist.isEmpty = true ∨ ci.buyingPower ≤ 0) :
    runCycle ci = ⟨[], [], ⟨0, []⟩, 300⟩ := by
  unfold runCycle
  by_cases h1 : ci.watchlist.isEmpty
  · simp [h1]
  · rcases h with h | h
    · exact absurd h h1
    · simp [h1, h]

lemma runCycle_go (ci : CycleInput) (h1 : ci.watchlist.isEmpty = false)
    (h2 : ¬ ci.buyingPower ≤ 0) :
    runCycle ci =
      ⟨(runPairs ci.buyingPower ci.balanceTradable ci.watchlist ⟨0, []⟩).evaluated,
       (runPairs ci.buyingPower ci.balanceTradable ci.watchlist ⟨0, []⟩).orders,
       (runPairs ci.buyingPower ci.balanceTradable ci.watchlist ⟨0, []⟩).state,
       300⟩ := by
  unfold runCycle
  simp [h1, h2]

lemma foldl_const_fix (f : ℚ → ℚ → ℚ) (c v : ℚ) (hf : f v c = v) :
    ∀ n : Nat, (List.replicate n c).foldl f v = v
  | 0 => rfl
  | n + 1 => by
    rw [List.replicate_succ, List.foldl_cons, hf, foldl_const_fix f c v hf n]

lemma crashCloses_len : crashCloses.length = 200 := by decide

lemma crashBars_len : crashBars.length = 200 := by decide

lemma crashClosesOf : closesOf crashBars = crashCloses := by decide

lemma crashDiffs : diffList crashCloses = List.replicate 198 1 ++ [-198] := by decide

lemma crashTr : trList crashBars = List.replicate 199 1 ++ [198] := by decide

lemma crashRsi : rsiLast crashCloses = some (1300/211) := by
  rw [rsiLast, crashCloses_len, if_neg (by norm_num), crashDiffs]
  have hup : upMoves (List.replicate 198 (1:ℚ) ++ [-198]) =
      List.replicate 198 1 ++ [0] := by
    rw [upMoves, List.map_append, List.map_replicate]
    norm_num
  have hdn : downMoves (List.replicate 198 (1:ℚ) ++ [-198]) =
      List.replicate 198 0 ++ [198] := by
    rw [downMoves, List.map_append, List.map_replicate]
    norm_num
  rw [hup, hdn]
  have hsplit1 : List.replicate 198 (1:ℚ) ++ [0] =
      1 :: (List.replicate 197 1 ++ [0]) := by
    rw [show (198:Nat) = 197 + 1 from rfl, List.replicate_succ, List.cons_append]
  have hsplit0 : List.replicate 198 (0:ℚ) ++ [198] =
      0 :: (List.replicate 197 0 ++ [198]) := by
    rw [show (198:Nat) = 197 + 1 from rfl, List.replicate_succ, List.cons_append]
  have heu : ewmLast (1/14) (List.replicate 198 (1:ℚ) ++ [0]) = 13/14 := by
    rw [hsplit1]
    simp only [ewmLast]
    rw [List.foldl_append, foldl_const_fix _ _ _ (by norm_num) 197]
    norm_num
  have hed : ewmLast (1/14) (List.replicate 198 (0:ℚ) ++ [198]) = 99/7 := by
    rw [hsplit0]
    simp only [ewmLast]
    rw [List.foldl_append, foldl_const_fix _ _ _ (by norm_num) 197]
    norm_num
  rw [heu, hed, rsiFromAverages, if_neg (by norm_num)]
  norm_num

lemma crashAtr : atrLast crashBars = some (211/14) := by
  rw [atrLast, crashBars_len, if_neg (by norm_num), crashTr]
  have h1 : (List.replicate 199 (1:ℚ) ++ [198]).take 14 = List.replicate 14 1 := by
    decide
  have h2 : (List.replicate 199 (1:ℚ) ++ [198]).drop 14 =
      List.replicate 185 1 ++ [198] := by decide
  have hsum : (List.replicate 14 (1:ℚ)).sum = 14 := by decide
  rw [wilderFold, h1, h2, hsum]
  have hinit : (14:ℚ)/14 = 1 := by norm_num
  rw [hinit, List.foldl_append, foldl_const_fix _ _ _ (by norm_num) 185]
  norm_num

lemma crashSnapshot : snapshotOfBars crashBars = crashSnap := by
  rw [snapshotOfBars, crashClosesOf, crashRsi, crashAtr]
  have h50 : rollingMeanLast 50 crashCloses = some (29263/25) := by decide
  have h200 : rollingMeanLast 200 crashCloses = some (219701/200) := by decide
  rw [h50, h200]
  rfl

lemma crashLast : lastClose crashBars = 1000 := by decide

lemma crashPrev : prevClose crashBars = 1198 := by decide

lemma crashBarsOk : barsOk crashBars = true := by decide

lemma stepUnfilled : pairStep 10000 [] buyUnfilledInp ⟨0, []⟩ =
    (⟨0, []⟩, [unfilledBuyOrder]) := by
  rw [pairStep_run rfl crashBarsOk, crashLast, crashPrev, crashSnapshot]
  decide

lemma stepFilled : pairStep 10000 [] buyFilledInp ⟨0, []⟩ =
    (⟨2000, [⟨Side.buy, "XETHZUSD", 1000, some (6789/7)⟩]⟩, [filledBuyOrder]) := by
  rw [pairStep_run rfl crashBarsOk, crashLast, crashPrev, crashSnapshot]
  decide

lemma stepErr : pairStep 10000 [] buyErrInp ⟨0, []⟩ =
    (⟨0, []⟩, [errBuyOrder]) := by
  rw [pairStep_run rfl crashBarsOk, crashLast, crashPrev, crashSnapshot]
  decide

lemma twoBuyOrders : (runCycle twoBuyCycle).orders =
    [unfilledBuyOrder, filledBuyOrder] := by
  rw [runCycle_go twoBuyCycle rfl (by decide)]
  show (runPairs 10000 [] [buyUnfilledInp, buyFilledInp] ⟨0, []⟩).orders = _
  simp only [runPairs, stepUnfilled, stepFilled]
  rfl

lemma oneBuyOrders : (runCycle oneBuyCycle).orders = [filledBuyOrder] := by
  rw [runCycle_go oneBuyCycle rfl (by decide)]
  show (runPairs 10000 [] [buyFilledInp] ⟨0, []⟩).orders = _
  simp only [runPairs, stepFilled]
  rfl

lemma rallySellStep : (pairStep 1000 rallyBt sellRallyInp ⟨0, []⟩).2 =
    [rallySellOrder] := by decide

/-- C1 (amended): within one cycle each buy volume is capped, before the
8-decimal rounding, at `min(positionSize, (buyingPower*0.20 -
allocatedSoFar)/currentPrice)`, and the allocation accumulator counts only
the buys whose submission `place_order` reported successful (placed and seen
filled).  Hence, for a cycle with nonnegative starting buying power in which
the rounding never rounds a capped buy volume up, the summed notional of the
accumulator-counted (filled) buys is at most `0.20 *
buyingPowerAtCycleStart`.  Orders that were placed but not reported filled
are not counted against the budget (see `C1_counterexample`). -/
theorem C1_filled_buy_notional_cap (ci : CycleInput)
    (h0 : 0 ≤ ci.buyingPower)
    (hr : ∀ o ∈ (runCycle ci).orders, o.side = Side.buy →
      o.volume ≤ o.preVolume) :
    filledBuyNotional (runCycle ci).orders ≤ ci.buyingPower * (20/100) := by
  have hB : (0:ℚ) ≤ ci.buyingPower * (20/100) :=
    mul_nonneg h0 (by norm_num)
  by_cases h1 : ci.watchlist.isEmpty
  · rw [runCycle_skip ci (Or.inl h1)]
    simpa [filledBuyNotional, notionalSum] using hB
  · by_cases h2 : ci.buyingPower ≤ 0
    · rw [runCycle_skip ci (Or.inr h2)]
      simpa [filledBuyNotional, notionalSum] using hB
    · rw [runCycle_go ci (by simpa using h1) h2] at hr ⊢
      have hsum := runPairs_alloc_sum ci.buyingPower ci.balanceTradable
        ci.watchlist ⟨0, []⟩
      have hinv := runPairs_invariant ci.buyingPower ci.balanceTradable
        ci.watchlist ⟨0, []⟩ (by simpa using hB) hr
      rw [hsum] at hinv
      simpa using hinv

/-- C1 counterexample: the claim as stated — the summed notional of ALL buy
orders placed within one cycle is at most 20% of the cycle-start buying
power — is false.  In `twoBuyCycle` (buying power 10000) the first pair's
buy of notional 2000 is placed on the exchange but reported unfilled, so the
accumulator stays 0 and the second pair is allowed another notional-2000
buy: the placed notional is 4000 > 2000 = 0.20 * 10000. -/
theorem C1_counterexample :
    (0:ℚ) ≤ twoBuyCycle.buyingPower ∧
    ¬ (placedBuyNotional (runCycle twoBuyCycle).orders ≤
        twoBuyCycle.buyingPower * (20/100)) := by
  rw [twoBuyOrders]
  decide

/-- C1 witness: the amended bound applied to a concrete one-pair cycle whose
buy (volume 2 at price 1000 against buying power 10000) is reported filled. -/
theorem C1_filled_buy_notional_cap_witness :
    filledBuyNotional (runCycle oneBuyCycle).orders ≤
      oneBuyCycle.buyingPower * (20/100) :=
  C1_filled_buy_notional_cap oneBuyCycle (by decide)
    (by rw [oneBuyOrders]; decide)

/-- C2: for every evaluated pair, a buy order is attempted only if all three
conditions hold simultaneously: `rsi < 30`, `currentPrice <= buyThreshold`,
and `shortSma > longSma`; equivalently, if any one of the three fails, no
buy order is attempted for that pair. -/
theorem C2_buy_requires_all_conditions (bp : ℚ) (bt : List (String × ℚ))
    (inp : PairInput) (st : StepState) (bars : List Bar) (o : SubmittedOrder)
    (hb : inp.bars = some bars) (ho : o ∈ (pairStep bp bt inp st).2)
    (hs : o.side = Side.buy) :
    oLt (snapshotOfBars bars).rsi 30 = true ∧
    leO (lastClose bars) ((snapshotOfBars bars).atr.map
      (fun a => buyThresholdQ (prevClose bars) a)) = true ∧
    isUptrend (snapshotOfBars bars) = true := by
  rcases hOk : barsOk bars with _ | _
  · rw [pairStep_badBars hb hOk] at ho
    simp at ho
  · rw [pairStep_run hb hOk] at ho
    rcases List.mem_append.mp ho with h | h
    · have hsig := (mem_buyPhase h).2.2.2.2.2.2.2
      rw [buySignal] at hsig
      simp only [Bool.and_eq_true] at hsig
      exact ⟨hsig.1.1, hsig.1.2, hsig.2⟩
    · rw [(mem_sellPhase h).1] at hs
      exact absurd hs (by decide)

/-- C2 witness: the three conditions, instantiated at the crash history for
which a buy order is in fact submitted. -/
theorem C2_buy_requires_all_conditions_witness :
    oLt (snapshotOfBars crashBars).rsi 30 = true ∧
    leO (lastClose crashBars) ((snapshotOfBars crashBars).atr.map
      (fun a => buyThresholdQ (prevClose crashBars) a)) = true ∧
    isUptrend (snapshotOfBars crashBars) = true :=
  C2_buy_requires_all_conditions 10000 [] buyFilledInp ⟨0, []⟩ crashBars
    filledBuyOrder rfl (by rw [stepFilled]; decide) rfl

/-- C3 (amended): for a history with fewer than 200 bars no exception is
raised and no `InsufficientDataError` exists in the code; instead the
200-bar SMA is NaN, so the uptrend filter fails and no buy order is ever
attempted — every order submitted for such a pair is a sell (sell
evaluation still proceeds, see `C3_counterexample`). -/
theorem C3_short_history_no_buy (bp : ℚ) (bt : List (String × ℚ))
    (inp : PairInput) (st : StepState) (bars : List Bar)
    (hb : inp.bars = some bars) (hlen : bars.length < 200)
    (o : SubmittedOrder) (ho : o ∈ (pairStep bp bt inp st).2) :
    o.side = Side.sell := by
  rcases hOk : barsOk bars with _ | _
  · rw [pairStep_badBars hb hOk] at ho
    simp at ho
  · rw [pairStep_run hb hOk] at ho
    rcases List.mem_append.mp ho with h | h
    · exfalso
      have hsig := (mem_buyPhase h).2.2.2.2.2.2.2
      have hnone : (snapshotOfBars bars).longSma = none := by
        simp [snapshotOfBars, rollingMeanLast, closesOf, hlen]
      rw [buySignal, isUptrend] at hsig
      rw [oGtO.eq_def] at hsig
      rw [hnone] at hsig
      simp at hsig
    · exact (mem_sellPhase h).1

/-- C3 counterexample: the claim that a sub-200-bar history fails with
`InsufficientDataError` and produces no decision is false: on the 20-bar
rally history the RSI is defined and above 70, and the pair step submits a
Sell order. -/
theorem C3_counterexample :
    rallyBars.length < 200 ∧
    oGt (snapshotOfBars rallyBars).rsi 70 = true ∧
    (pairStep 1000 rallyBt sellRallyInp ⟨0, []⟩).2.map SubmittedOrder.side =
      [Side.sell] := by
  refine ⟨by decide, by decide, ?_⟩
  rw [rallySellStep]
  decide

/-- C3 witness: the amended no-buy property applied to the 20-bar rally
history, whose single submitted order is the sell. -/
theorem C3_short_history_no_buy_witness :
    rallyBars.length < 200 ∧ rallySellOrder.side = Side.sell :=
  ⟨by decide,
    C3_short_history_no_buy 1000 rallyBt sellRallyInp ⟨0, []⟩ rallyBars rfl
      (by decide) rallySellOrder (by rw [rallySellStep]; decide)⟩

/-- C4 (amended): when the order-placement collaborator reports an error,
`place_order` returns the Failed outcome `(success = false, no order id)`
directly, with no fill-status poll — but contrary to the claim no
notification is sent either (a notification is e-mailed only when placement
raises an exception); no TradeRecord is created, the allocation accumulator
is unchanged, and the pair loop continues through every watchlist pair. -/
theorem C4_error_reply_fails_without_notification (bp : ℚ)
    (bt : List (String × ℚ)) (inp : PairInput) (st : StepState)
    (ci : CycleInput) (he : inp.buyOrderRes = AddOrderResp.err)
    (h1 : ci.watchlist.isEmpty = false) (h2 : ¬ ci.buyingPower ≤ 0) :
    placeOrder AddOrderResp.err = ⟨false, none, false, false⟩ ∧
    (pairStep bp bt inp st).1.totalAllocated = st.totalAllocated ∧
    (pairStep bp bt inp st).1.trades.filter (fun t => t.type == Side.buy) =
      st.trades.filter (fun t => t.type == Side.buy) ∧
    (runCycle ci).evaluated = ci.watchlist.map PairInput.pair := by
  have hnf : isFilled inp.buyOrderRes = false := by rw [he]; rfl
  refine ⟨rfl, (pairStep_not_filled bp bt inp st hnf).1,
    (pairStep_not_filled bp bt inp st hnf).2, ?_⟩
  rw [runCycle_go ci h1 h2]
  exact runPairs_evaluated _ _ _ _

/-- C4 counterexample: on a collaborator-reported error the order does fail
without polling, but the claimed notification is NOT sent
(`emailed = false`): the error branch of `place_order` only logs. -/
theorem C4_counterexample :
    (placeOrder AddOrderResp.err).success = false ∧
    (placeOrder AddOrderResp.err).orderId = none ∧
    (placeOrder AddOrderResp.err).polled = false ∧
    ¬ ((placeOrder AddOrderResp.err).emailed = true) := by
  decide

/-- C4 witness: the amended behaviour at a concrete pair whose buy
submission is answered with an error response. -/
theorem C4_error_reply_fails_without_notification_witness :
    placeOrder AddOrderResp.err = ⟨false, none, false, false⟩ ∧
    (pairStep 10000 [] buyErrInp ⟨0, []⟩).1.totalAllocated =
      (StepState.mk 0 []).totalAllocated ∧
    (pairStep 10000 [] buyErrInp ⟨0, []⟩).1.trades.filter
        (fun t => t.type == Side.buy) =
      (StepState.mk 0 []).trades.filter (fun t => t.type == Side.buy) ∧
    (runCycle oneBuyCycle).evaluated = oneBuyCycle.watchlist.map PairInput.pair :=
  C4_error_reply_fails_without_notification 10000 [] buyErrInp ⟨0, []⟩
    oneBuyCycle rfl rfl (by decide)

/-- C5 (amended): for every evaluated pair a sell order is submitted iff the
tradable holding of the 4-CHARACTER PREFIX of the pair identifier (not of
the pair's base asset) is positive AND at least one trigger holds
(`rsi > 70`, or `currentPrice <= sellLossThreshold`, or `currentPrice >=
sellProfitThreshold`).  For pairs whose identifier does not start with its
base asset code the original claim fails (see `C5_counterexample`). -/
theorem C5_sell_fires_iff_prefix_holding (bp : ℚ) (bt : List (String × ℚ))
    (inp : PairInput) (st : StepState) (bars : List Bar)
    (hb : inp.bars = some bars) (hOk : barsOk bars = true) :
    ((pairStep bp bt inp st).2.any (fun o => o.side == Side.sell)) =
      sellSignal (snapshotOfBars bars) (lastClose bars) (prevClose bars)
        (lookupQ bt (pyPrefix4 inp.pair)) := by
  rw [pairStep_run hb hOk]
  dsimp only
  rw [List.any_append]
  have h1 : (buyPhase bp inp.pair inp.minOrder inp.buyOrderRes (lastClose bars)
      (prevClose bars) (snapshotOfBars bars) st).2.any
      (fun o => o.side == Side.sell) = false := by
    rcases buyPhase_orders_shape bp inp.pair inp.minOrder inp.buyOrderRes
        (lastClose bars) (prevClose bars) (snapshotOfBars bars) st with
      h | ⟨ord, h⟩
    · rw [h]
      rfl
    · have hmem : ord ∈ (buyPhase bp inp.pair inp.minOrder inp.buyOrderRes
          (lastClose bars) (prevClose bars) (snapshotOfBars bars) st).2 := by
        rw [h]
        exact List.mem_singleton_self ord
      rw [h]
      simp [(mem_buyPhase hmem).1]
  rw [h1, sellPhase_orders]
  split
  · rename_i hsig
    rw [hsig]
    rfl
  · rename_i hsig
    rw [Bool.not_eq_true] at hsig
    rw [hsig]
    rfl

/-- C5 counterexample: for the pair ADAZUSD, whose base asset is ADA (per
the exchange metadata modelled by `baseAssetSpec`), the claim predicts a
sell: the base-asset holding is 5 > 0 and the overbought trigger holds.
The code, however, looks up the prefix "ADAZ", finds no holding, and
submits nothing. -/
theorem C5_counterexample :
    0 < lookupQ adaBt (baseAssetSpec "ADAZUSD") ∧
    sellTrigger (snapshotOfBars rallyBars) (lastClose rallyBars)
      (prevClose rallyBars) = true ∧
    (pairStep 1000 adaBt sellAdaInp ⟨0, []⟩).2 = [] := by
  decide

/-- C5 witness: the amended iff at the XXBTZUSD rally scenario, where the
4-character prefix XXBT does hold the base asset and the sell fires. -/
theorem C5_sell_fires_iff_prefix_holding_witness :
    ((pairStep 1000 rallyBt sellRallyInp ⟨0, []⟩).2.any
        (fun o => o.side == Side.sell)) =
      sellSignal (snapshotOfBars rallyBars) (lastClose rallyBars)
        (prevClose rallyBars) (lookupQ rallyBt (pyPrefix4 sellRallyInp.pair)) :=
  C5_sell_fires_iff_prefix_holding 1000 rallyBt sellRallyInp ⟨0, []⟩ rallyBars
    rfl (by decide)

/-- C6: every submitted buy order has volume at least the exchange-reported
minimum order size for its pair (a candidate below the minimum is rejected
before submission), and the submitted volume is exactly the rounded capped
volume — a rejection, never a clamped-up order. -/
theorem C6_submitted_buy_meets_min (bp : ℚ) (bt : List (String × ℚ))
    (inp : PairInput) (st : StepState) (o : SubmittedOrder)
    (ho : o ∈ (pairStep bp bt inp st).2) (hs : o.side = Side.buy) :
    inp.minOrder ≤ o.volume ∧ o.volume = pyRound8 o.preVolume := by
  rcases heq : inp.bars with _ | bars
  · rw [pairStep_none heq] at ho
    simp at ho
  · rcases hOk : barsOk bars with _ | _
    · rw [pairStep_badBars heq hOk] at ho
      simp at ho
    · rw [pairStep_run heq hOk] at ho
      rcases List.mem_append.mp ho with h | h
      · have hm := mem_buyPhase h
        exact ⟨hm.2.2.2.2.2.1, hm.2.2.2.2.1⟩
      · rw [(mem_sellPhase h).1] at hs
        exact absurd hs (by decide)

/-- C6 witness: the min-order bound at the concrete crash-history buy
(volume 2 against minimum 0.01). -/
theorem C6_submitted_buy_meets_min_witness :
    buyFilledInp.minOrder ≤ filledBuyOrder.volume ∧
    filledBuyOrder.volume = pyRound8 filledBuyOrder.preVolume :=
  C6_submitted_buy_meets_min 10000 [] buyFilledInp ⟨0, []⟩ filledBuyOrder
    (by rw [stepFilled]; decide) rfl

/-- C8: the three thresholds are computed exactly as `buyThreshold =
previousClose*(1 - 0.15 - atr/previousClose)`, `sellLossThreshold =
previousClose*(1 - 0.07 - atr/previousClose)` and `sellProfitThreshold =
previousClose*(1 + 0.25 + atr/previousClose)`; and for scenario A
(`previousClose = 100, atr = 5, rsi = 25, shortSma = 110, longSma = 100,
currentPrice = 78`) the evaluator computes `buyThreshold = 80`,
`isUptrend = true`, and a Buy decision. -/
theorem C8_thresholds_and_scenarioA :
    (∀ pc a : ℚ, buyThresholdQ pc a = pc * (1 - 15/100 - a / pc) ∧
      sellLossThresholdQ pc a = pc * (1 - 7/100 - a / pc) ∧
      sellProfitThresholdQ pc a = pc * (1 + 25/100 + a / pc)) ∧
    buyThresholdQ 100 5 = 80 ∧
    isUptrend ⟨some 25, some 110, some 100, some 5⟩ = true ∧
    buySignal ⟨some 25, some 110, some 100, some 5⟩ 78 100 = true :=
  ⟨fun _ _ => ⟨rfl, rfl, rfl⟩, by decide, by decide, by decide⟩

/-- C9: in a cycle whose starting buying power is at most 0, no pair is
evaluated at all — no buy or sell order can be submitted (zero buying power
pauses all trading, not just buys) — and the worker then requests the
standard 300-second sleep, which runs its full 300 ticks while the shutdown
flag stays unset. -/
theorem C9_zero_buying_power_pauses_cycle (ci : CycleInput)
    (h : ci.buyingPower ≤ 0) :
    (runCycle ci).evaluated = [] ∧ (runCycle ci).orders = [] ∧
    (runCycle ci).cycleSleep = 300 ∧
    sleepRun (fun _ => false) 300 0 = 300 := by
  rw [runCycle_skip ci (Or.inr h)]
  exact ⟨rfl, rfl, rfl, by decide⟩

/-- C9 witness: a zero-buying-power cycle over a pair whose sell trigger
would otherwise fire still evaluates nothing and sleeps the full interval. -/
theorem C9_zero_buying_power_pauses_cycle_witness :
    (runCycle zeroBpCycle).evaluated = [] ∧ (runCycle zeroBpCycle).orders = [] ∧
    (runCycle zeroBpCycle).cycleSleep = 300 ∧
    sleepRun (fun _ => false) 300 0 = 300 :=
  C9_zero_buying_power_pauses_cycle zeroBpCycle (by decide)

lemma buyPhase_filter_sell (bp : ℚ) (pair : String) (minOrder : ℚ)
    (resp : AddOrderResp) (cp pc : ℚ) (snap : Snapshot) (st : StepState) :
    (buyPhase bp pair minOrder resp cp pc snap st).2.filter
      (fun x => x.side == Side.sell) = [] := by
  rcases buyPhase_orders_shape bp pair minOrder resp cp pc snap st with
    h | ⟨ord, h⟩
  · rw [h]
    rfl
  · have hmem : ord ∈ (buyPhase bp pair minOrder resp cp pc snap st).2 := by
      rw [h]
      exact List.mem_singleton_self ord
    rw [h]
    simp [(mem_buyPhase hmem).1]

lemma sellPhase_orders_state_free (bt : List (String × ℚ)) (pair : String)
    (resp : AddOrderResp) (cp pc : ℚ) (snap : Snapshot) (st st' : StepState) :
    (sellPhase bt pair resp cp pc snap st).2 =
      (sellPhase bt pair resp cp pc snap st').2 := by
  rw [sellPhase_orders, sellPhase_orders]

lemma sellPhase_filter_sell (bt : List (String × ℚ)) (pair : String)
    (resp : AddOrderResp) (cp pc : ℚ) (snap : Snapshot) (st : StepState) :
    (sellPhase bt pair resp cp pc snap st).2.filter
      (fun x => x.side == Side.sell) = (sellPhase bt pair resp cp pc snap st).2 := by
  rw [sellPhase_orders]
  split <;> rfl

lemma pairStep_sells_minOrder_free (bp : ℚ) (bt : List (String × ℚ))
    (st : StepState) (m1 m2 : ℚ) (pair : String) (b : Option (List Bar))
    (br sr : AddOrderResp) :
    (pairStep bp bt ⟨pair, b, m1, br, sr⟩ st).2.filter
        (fun x => x.side == Side.sell) =
      (pairStep bp bt ⟨pair, b, m2, br, sr⟩ st).2.filter
        (fun x => x.side == Side.sell) := by
  rcases b with _ | bars
  · rw [pairStep_none rfl, pairStep_none rfl]
  · rcases hOk : barsOk bars with _ | _
    · rw [pairStep_badBars rfl hOk, pairStep_badBars rfl hOk]
    · rw [pairStep_run rfl hOk, pairStep_run rfl hOk]
      dsimp only
      rw [List.filter_append, List.filter_append, buyPhase_filter_sell,
        buyPhase_filter_sell, sellPhase_filter_sell, sellPhase_filter_sell,
        List.nil_append, List.nil_append]
      exact sellPhase_orders_state_free _ _ _ _ _ _ _ _

/-- C10: every submitted sell order's volume is the entire tradable holding
of the extracted (4-character-prefix) asset code rounded to 8 decimal
places, and no minimum-order-size check is applied to sells: the sell
submissions of a pair step are identical under any two values of the
pair's minimum order size. -/
theorem C10_sell_full_holding_no_min_check (bp : ℚ) (bt : List (String × ℚ))
    (inp : PairInput) (st : StepState) (o : SubmittedOrder) (m1 m2 : ℚ)
    (ho : o ∈ (pairStep bp bt inp st).2) (hs : o.side = Side.sell) :
    o.volume = pyRound8 (lookupQ bt (pyPrefix4 inp.pair)) ∧
    (pairStep bp bt { inp with minOrder := m1 } st).2.filter
        (fun x => x.side == Side.sell) =
      (pairStep bp bt { inp with minOrder := m2 } st).2.filter
        (fun x => x.side == Side.sell) := by
  constructor
  · rcases heq : inp.bars with _ | bars
    · rw [pairStep_none heq] at ho
      simp at ho
    · rcases hOk : barsOk bars with _ | _
      · rw [pairStep_badBars heq hOk] at ho
        simp at ho
      · rw [pairStep_run heq hOk] at ho
        rcases List.mem_append.mp ho with h | h
        · rw [(mem_buyPhase h).1] at hs
          exact absurd hs (by decide)
        · exact (mem_sellPhase h).2.2.2.2
  · exact pairStep_sells_minOrder_free bp bt st m1 m2 inp.pair inp.bars
      inp.buyOrderRes inp.sellOrderRes

/-- C10 witness: the sell of the whole 2-coin holding is submitted even when
the pair's reported minimum order size is 1000000. -/
theorem C10_sell_full_holding_no_min_check_witness :
    rallySellOrder.volume = pyRound8 (lookupQ rallyBt (pyPrefix4 sellBigMinInp.pair)) ∧
    (pairStep 1000 rallyBt { sellBigMinInp with minOrder := 1/100 } ⟨0, []⟩).2.filter
        (fun x => x.side == Side.sell) =
      (pairStep 1000 rallyBt { sellBigMinInp with minOrder := 1000000 } ⟨0, []⟩).2.filter
        (fun x => x.side == Side.sell) :=
  C10_sell_full_holding_no_min_check 1000 rallyBt sellBigMinInp ⟨0, []⟩
    rallySellOrder (1/100) 1000000 (by decide) rfl

end KBot
